import Mathlib

/-!
Shallow embedding of `fast_animate.py`: a blit-based redraw manager
(`BlitManager`), the renderer process loop (`animated_plot_process`),
and the demo producer (`main`).

Opaque GUI-toolkit effects (snapshot capture, artist drawing, blitting,
event flushing) are recorded as an explicit operation trace; snapshots
are identified by a fresh counter so that "a fresh snapshot" is
observable.  Python `raise RuntimeError` is modelled by a `raised` flag
together with the state as it stood at the point of the raise.
-/

/-- A matplotlib canvas: identity (`id`) plus the figure it belongs to.
Python compares canvases and figures by object identity, modelled here by
these numeric identities. -/
structure Canvas where
  id : Nat
  figure : Nat
  deriving DecidableEq

/-- A matplotlib artist: identity, the figure it belongs to, and its
animated flag (mutated by `set_animated`). -/
structure Artist where
  id : Nat
  figure : Nat
  animated : Bool
  deriving DecidableEq

/-- The observable GUI operations performed by the redraw manager.
`capture n` is `canvas.copy_from_bbox` yielding snapshot `n`;
`drawArtist a` is `figure.draw_artist(a)`; `restore n` is
`canvas.restore_region` of snapshot `n`; `blit` is `canvas.blit`;
`flushEvents` is `canvas.flush_events`. -/
inductive DrawOp where
  | capture : Nat → DrawOp
  | drawArtist : Artist → DrawOp
  | restore : Nat → DrawOp
  | blit : DrawOp
  | flushEvents : DrawOp
  deriving DecidableEq

/-- State of a `BlitManager`: the managed canvas, the cached background
snapshot (`_bg`, `none` initially), the registered animated artists
(`_artists`, in registration order), and a counter supplying fresh
snapshot identifiers for each `copy_from_bbox`. -/
structure BMState where
  canvas : Canvas
  bg : Option Nat
  artists : List Artist
  nextSnap : Nat
  deriving DecidableEq

/-- Result of a `BlitManager` method that draws: the state after the
call, the GUI operations performed, and whether it raised. -/
structure DrawRes where
  state : BMState
  ops : List DrawOp
  raised : Bool
  deriving DecidableEq

/-- Result of `add_artist`: the state after the call, the (possibly
mutated) artist, and whether it raised. -/
structure AddRes where
  state : BMState
  artist : Artist
  raised : Bool
  deriving DecidableEq

namespace BlitManager

/-- Embedding of `BlitManager._draw_animated`: draw every registered
artist, in registration order. -/
def draw_animated (s : BMState) : List DrawOp :=
  s.artists.map DrawOp.drawArtist

/-- Embedding of `BlitManager.on_draw(event)`.  An event is `some c`
(a draw event whose `.canvas` is `c`) or `none` (Python `None`, the
internal call from `update`).  If the event is not `None` and its canvas
differs from the managed one, raise `RuntimeError`; otherwise capture a
fresh background snapshot and draw the animated artists. -/
def on_draw (event : Option Canvas) (s : BMState) : DrawRes :=
  match event with
  | some ec =>
      if ec ≠ s.canvas then
        { state := s, ops := [], raised := true }
      else
        { state := { s with bg := some s.nextSnap, nextSnap := s.nextSnap + 1 },
          ops := DrawOp.capture s.nextSnap :: draw_animated s,
          raised := false }
  | none =>
      { state := { s with bg := some s.nextSnap, nextSnap := s.nextSnap + 1 },
        ops := DrawOp.capture s.nextSnap :: draw_animated s,
        raised := false }

/-- Embedding of `BlitManager.add_artist(art)`: raise `RuntimeError` if
the artist's figure is not the managed canvas's figure; otherwise set
the artist animated and append it to `_artists`. -/
def add_artist (art : Artist) (s : BMState) : AddRes :=
  if art.figure ≠ s.canvas.figure then
    { state := s, artist := art, raised := true }
  else
    let art2 := { art with animated := true }
    { state := { s with artists := s.artists ++ [art2] },
      artist := art2,
      raised := false }

/-- Embedding of `BlitManager.update()`: if `_bg` is `None`, fall back
to `on_draw(None)`; otherwise restore the cached background, draw the
animated artists and blit the figure bbox.  Either way, flush pending
GUI events last. -/
def update (s : BMState) : DrawRes :=
  match s.bg with
  | none =>
      let r := on_draw none s
      { r with ops := r.ops ++ [DrawOp.flushEvents] }
  | some b =>
      { state := s,
        ops := DrawOp.restore b ::
          (draw_animated s ++ [DrawOp.blit, DrawOp.flushEvents]),
        raised := false }

end BlitManager

/-- A sample vector pulled from the queue; the sentinel is `[]`. -/
abbrev Frame := List Int

/-- State of the renderer process `animated_plot_process`: the frame
counter `frame_num`, the line's current y-data, the frame-number
annotation text, the `BlitManager` state, and whether `plt.close()` has
run. -/
structure RendererState where
  frame_num : Nat
  lnData : Frame
  frText : String
  bm : BMState
  closed : Bool
  deriving DecidableEq

/-- Observable events of one renderer-loop iteration: a blocking queue
read, a render of a data frame (ydata + text update + `bm.update()`),
and the `plt.close()` on the sentinel path. -/
inductive REvent where
  | read : Frame → REvent
  | render : Frame → REvent
  | close : REvent
  deriving DecidableEq

/-- Embedding of the `while True` loop of `animated_plot_process`, run
against the finite list of frames available on the queue.  Returns the
final renderer state, the trace of events, and whether the loop
terminated via the sentinel (`false` means the input was exhausted and
the loop is blocked on `queue.get()`). -/
def rendererLoop : List Frame → RendererState → RendererState × List REvent × Bool
  | [], st => (st, [], false)
  | d :: rest, st =>
      let st1 := { st with frame_num := st.frame_num + 1 }
      if d.length = 0 then
        ({ st1 with closed := true }, [REvent.read d, REvent.close], true)
      else
        let st2 := { st1 with lnData := d,
                              frText := "frame: " ++ toString st1.frame_num }
        let st3 := { st2 with bm := (BlitManager.update st2.bm).state }
        let r := rendererLoop rest st3
        (r.1, REvent.read d :: REvent.render d :: r.2.1, r.2.2)

/-- The canvas of the figure created by `plt.subplots()` in
`animated_plot_process`. -/
def procCanvas : Canvas := { id := 0, figure := 0 }

/-- The line artist `ln` created by `ax.plot(..., animated=True)`. -/
def procLn : Artist := { id := 0, figure := 0, animated := true }

/-- The frame-number text artist `fr_number` created by `ax.annotate`
with `animated=True`. -/
def procFrNumber : Artist := { id := 1, figure := 0, animated := true }

/-- Embedding of `BlitManager.__init__(canvas, animated_artists)`:
start with no background and no artists, then `add_artist` each given
artist in order. -/
def bmInit (c : Canvas) (arts : List Artist) : BMState :=
  arts.foldl (fun s a => (BlitManager.add_artist a s).state)
    { canvas := c, bg := none, artists := [], nextSnap := 0 }

/-- The renderer state right before the `while True` loop of
`animated_plot_process(queue, n_samples)`: frame counter 0, y-data all
zeros, the annotation showing "0", a fresh `BlitManager` over `[ln,
fr_number]`, window not closed. -/
def initRenderer (n_samples : Nat) : RendererState :=
  { frame_num := 0,
    lnData := List.replicate n_samples 0,
    frText := "0",
    bm := bmInit procCanvas [procLn, procFrNumber],
    closed := false }

/-- Observable events of the demo producer `main`: enqueue a frame,
join the renderer process, report its exit code. -/
inductive MainEvent where
  | put : Frame → MainEvent
  | joinRenderer : MainEvent
  | reportExit : MainEvent
  deriving DecidableEq

/-- The `n_samples` value fixed inside `main`. -/
def mainNSamples : Nat := 400

/-- Embedding of `main()`: for `j` in `range(100)` enqueue `gen j` (the
`j`-th random vector produced by `np.random.random((n_samples,))`), then
enqueue the empty sentinel `tuple()`, join the renderer process and
report its exit code. -/
def mainRun (gen : Nat → Frame) : List MainEvent :=
  ((List.range 100).foldl (fun acc j => acc ++ [MainEvent.put (gen j)]) [])
    ++ [MainEvent.put [], MainEvent.joinRenderer, MainEvent.reportExit]

/-- Number of snapshot captures in a trace of GUI operations. -/
def captures (ops : List DrawOp) : Nat :=
  ops.countP fun o => match o with
    | DrawOp.capture _ => true
    | _ => false

/-- Number of queue reads in a renderer trace. -/
def readCount (tr : List REvent) : Nat :=
  tr.countP fun e => match e with
    | REvent.read _ => true
    | _ => false

/-- Number of rendered data frames in a renderer trace. -/
def renderCount (tr : List REvent) : Nat :=
  tr.countP fun e => match e with
    | REvent.render _ => true
    | _ => false

/-- Whether a producer event enqueues a non-sentinel data frame. -/
def isDataPut : MainEvent → Bool
  | MainEvent.put d => !d.isEmpty
  | _ => false

/-- A `BlitManager` state with a cached background snapshot (id 5),
used as a concrete evaluation point. -/
def sampleBM : BMState :=
  { canvas := procCanvas, bg := some 5,
    artists := [procLn, procFrNumber], nextSnap := 6 }

/-- A `BlitManager` state with no cached background snapshot yet, used
as a concrete evaluation point. -/
def sampleBMFresh : BMState :=
  { canvas := procCanvas, bg := none,
    artists := [procLn, procFrNumber], nextSnap := 0 }

/-- A canvas distinct from the managed one. -/
def otherCanvas : Canvas := { id := 1, figure := 1 }

/-- An artist belonging to a different figure than the managed canvas. -/
def otherArtist : Artist := { id := 7, figure := 1, animated := false }

/-- A concrete data generator standing in for `np.random.random`. -/
def sampleGen : Nat → Frame := fun _ => List.replicate mainNSamples 0

/-- Drawing the animated artists performs no snapshot capture. -/
theorem captures_draw_animated (s : BMState) :
    captures (BlitManager.draw_animated s) = 0 := by
  simp [captures, BlitManager.draw_animated, List.countP_map]

/-- The frame counter advances by exactly the number of queue reads in
the trace, whatever frames arrive. -/
theorem rendererLoop_frame_num (input : List Frame) (st : RendererState) :
    (rendererLoop input st).1.frame_num
      = st.frame_num + readCount (rendererLoop input st).2.1 := by
  induction input generalizing st with
  | nil => simp [rendererLoop, readCount]
  | cons d rest ih =>
      by_cases hd : d.length = 0
      · simp [rendererLoop, hd, readCount, List.countP_cons]
      · simp only [rendererLoop, hd, if_neg, reduceIte]
        rw [ih]
        simp [readCount, List.countP_cons]
        omega

/-- Running the loop on `k` nonempty frames, the sentinel, and then
anything else: the loop terminates, reads exactly `k + 1` items, renders
exactly `k` frames, advances the counter by `k + 1`, and closes the
window. -/
theorem rendererLoop_run (fs extra : List Frame) (st : RendererState)
    (h : ∀ d ∈ fs, d ≠ ([] : Frame)) :
    (rendererLoop (fs ++ [] :: extra) st).2.2 = true ∧
    readCount (rendererLoop (fs ++ [] :: extra) st).2.1 = fs.length + 1 ∧
    renderCount (rendererLoop (fs ++ [] :: extra) st).2.1 = fs.length ∧
    (rendererLoop (fs ++ [] :: extra) st).1.frame_num
        = st.frame_num + fs.length + 1 ∧
    (rendererLoop (fs ++ [] :: extra) st).1.closed = true := by
  induction fs generalizing st with
  | nil => simp [rendererLoop, readCount, renderCount]
  | cons d rest ih =>
      have hd : ¬ d.length = 0 := by
        intro hl
        exact h d (List.mem_cons_self d rest) (List.length_eq_zero.mp hl)
      have ih3 := ih { frame_num := st.frame_num + 1, lnData := d,
                       frText := "frame: " ++ toString (st.frame_num + 1),
                       bm := (BlitManager.update st.bm).state,
                       closed := st.closed }
                    (fun x hx => h x (List.mem_cons_of_mem d hx))
      simp only at ih3
      obtain ⟨h1, h2, h3, h4, h5⟩ := ih3
      simp only [List.cons_append, List.append_eq, rendererLoop, hd, reduceIte]
      refine ⟨h1, ?_, ?_, ?_, h5⟩
      · simp only [readCount, List.countP_cons] at h2 ⊢
        simp
        omega
      · simp only [renderCount, List.countP_cons] at h3 ⊢
        simp
        omega
      · simp only [List.length_cons]
        omega

/-- The annotation text after `k` nonempty frames and the sentinel: the
initial text when `k = 0`, otherwise the text set while rendering the
last data frame. -/
theorem rendererLoop_frText (fs extra : List Frame) (st : RendererState)
    (h : ∀ d ∈ fs, d ≠ ([] : Frame)) :
    (rendererLoop (fs ++ [] :: extra) st).1.frText
      = if fs.length = 0 then st.frText
        else "frame: " ++ toString (st.frame_num + fs.length) := by
  induction fs generalizing st with
  | nil => simp [rendererLoop]
  | cons d rest ih =>
      have hd : ¬ d.length = 0 := by
        intro hl
        exact h d (List.mem_cons_self d rest) (List.length_eq_zero.mp hl)
      have ih3 := ih { frame_num := st.frame_num + 1, lnData := d,
                       frText := "frame: " ++ toString (st.frame_num + 1),
                       bm := (BlitManager.update st.bm).state,
                       closed := st.closed }
                    (fun x hx => h x (List.mem_cons_of_mem d hx))
      simp only at ih3
      simp only [List.cons_append, List.append_eq, rendererLoop, hd, reduceIte]
      rw [ih3]
      by_cases hr : rest.length = 0
      · simp [hr]
      · simp only [hr, reduceIte, List.length_cons]
        have hn : st.frame_num + 1 + rest.length = st.frame_num + (rest.length + 1) := by
          omega
        simp [hr, hn]

/-- Snapshot capture count of a managed-canvas draw event is one. -/
theorem captures_on_draw_self (s : BMState) :
    captures (BlitManager.on_draw (some s.canvas) s).ops = 1 := by
  simp [BlitManager.on_draw, BlitManager.draw_animated, captures,
        List.countP_cons, List.countP_map]

/-- With a cached snapshot, `update` takes the blit branch. -/
theorem update_some_bg (s : BMState) (b : Nat) (h : s.bg = some b) :
    BlitManager.update s
      = { state := s,
          ops := DrawOp.restore b ::
            (BlitManager.draw_animated s ++ [DrawOp.blit, DrawOp.flushEvents]),
          raised := false } := by
  simp [BlitManager.update, h]

/-- Accumulating one image per element with `foldl` is `map`. -/
theorem foldl_push_eq_map {α β : Type} (f : α → β) (l : List α) (acc : List β) :
    l.foldl (fun a x => a ++ [f x]) acc = acc ++ l.map f := by
  induction l generalizing acc with
  | nil => simp
  | cons x xs ih => simp [List.foldl, ih]

/-- C1 counterexample: with the sentinel as the very first queue item,
the loop terminates, but `frame_num += 1` has already run before the
length check, so the renderer terminates with the frame counter at 1,
not at 0 as the claim states. -/
theorem C1_counterexample :
    (rendererLoop [[]] (initRenderer 400)).2.2 = true ∧
    (rendererLoop [[]] (initRenderer 400)).1.frame_num = 1 ∧
    ¬ (rendererLoop [[]] (initRenderer 400)).1.frame_num = 0 :=
  ⟨rfl, rfl, by decide⟩

/-- C1 (amended): the frame counter is incremented once per consumed
vector, the sentinel included, so it equals the total number of queue
reads; after `k` data frames and the sentinel it terminates at `k + 1`;
the displayed annotation text equals the count of non-sentinel vectors
received so far ("0" initially, "frame: k" after the `k`-th data
frame). -/
theorem C1_frame_counter (n : Nat) (fs extra : List Frame)
    (h : ∀ d ∈ fs, d ≠ ([] : Frame)) :
    (rendererLoop (fs ++ [] :: extra) (initRenderer n)).1.frame_num
        = readCount (rendererLoop (fs ++ [] :: extra) (initRenderer n)).2.1 ∧
    (rendererLoop (fs ++ [] :: extra) (initRenderer n)).1.frame_num
        = fs.length + 1 ∧
    (rendererLoop (fs ++ [] :: extra) (initRenderer n)).1.frText
        = if fs.length = 0 then "0" else "frame: " ++ toString fs.length := by
  have hr := rendererLoop_run fs extra (initRenderer n) h
  have ht := rendererLoop_frText fs extra (initRenderer n) h
  have hf := rendererLoop_frame_num (fs ++ [] :: extra) (initRenderer n)
  refine ⟨?_, ?_, ?_⟩
  · rw [hf]
    simp [initRenderer]
  · rw [hr.2.2.2.1]
    simp [initRenderer]
  · rw [ht]
    simp [initRenderer]

/-- C1 witness: the amended claim at the immediate-sentinel scenario:
one read, counter terminates at 1, annotation text still "0". -/
theorem C1_frame_counter_witness :
    (∀ d ∈ ([] : List Frame), d ≠ ([] : Frame)) ∧
    ((rendererLoop [[]] (initRenderer 400)).1.frame_num
        = readCount (rendererLoop [[]] (initRenderer 400)).2.1 ∧
     (rendererLoop [[]] (initRenderer 400)).1.frame_num = 1 ∧
     (rendererLoop [[]] (initRenderer 400)).1.frText = "0") :=
  ⟨by simp, C1_frame_counter 400 [] [] (by simp)⟩

/-- C2: after `k` data frames and the sentinel, the loop terminates,
having read exactly `k + 1` items (so no read after the sentinel,
whatever else is still pending on the queue), rendered exactly the `k`
data frames, and closed the window on exit. -/
theorem C2_sentinel_termination (n : Nat) (fs extra : List Frame)
    (h : ∀ d ∈ fs, d ≠ ([] : Frame)) :
    (rendererLoop (fs ++ [] :: extra) (initRenderer n)).2.2 = true ∧
    readCount (rendererLoop (fs ++ [] :: extra) (initRenderer n)).2.1
        = fs.length + 1 ∧
    renderCount (rendererLoop (fs ++ [] :: extra) (initRenderer n)).2.1
        = fs.length ∧
    (rendererLoop (fs ++ [] :: extra) (initRenderer n)).1.closed = true := by
  have hr := rendererLoop_run fs extra (initRenderer n) h
  exact ⟨hr.1, hr.2.1, hr.2.2.1, hr.2.2.2.2⟩

/-- C2 witness: two data frames, the sentinel, and one more pending
frame after it: three reads total, two renders, terminated and closed. -/
theorem C2_sentinel_termination_witness :
    (∀ d ∈ [[(1 : Int)], [2]], d ≠ ([] : Frame)) ∧
    ((rendererLoop ([[(1 : Int)], [2]] ++ [] :: [[3]]) (initRenderer 1)).2.2 = true ∧
     readCount (rendererLoop ([[(1 : Int)], [2]] ++ [] :: [[3]])
        (initRenderer 1)).2.1 = 3 ∧
     renderCount (rendererLoop ([[(1 : Int)], [2]] ++ [] :: [[3]])
        (initRenderer 1)).2.1 = 2 ∧
     (rendererLoop ([[(1 : Int)], [2]] ++ [] :: [[3]]) (initRenderer 1)).1.closed
        = true) :=
  ⟨by decide, C2_sentinel_termination 1 [[1], [2]] [[3]] (by decide)⟩

/-- C3: a full-redraw event from the managed canvas performs exactly
one snapshot capture; `update` with a cached snapshot performs no
capture, restores exactly the cached snapshot and leaves it cached; two
consecutive full-redraw events perform exactly two captures. -/
theorem C3_snapshot_discipline (s : BMState) (b : Nat) :
    captures (BlitManager.on_draw (some s.canvas) s).ops = 1 ∧
    (s.bg = some b →
      captures (BlitManager.update s).ops = 0 ∧
      (BlitManager.update s).state.bg = some b ∧
      DrawOp.restore b ∈ (BlitManager.update s).ops) ∧
    captures ((BlitManager.on_draw (some s.canvas) s).ops
        ++ (BlitManager.on_draw
              (some (BlitManager.on_draw (some s.canvas) s).state.canvas)
              (BlitManager.on_draw (some s.canvas) s).state).ops) = 2 := by
  refine ⟨captures_on_draw_self s, ?_, ?_⟩
  · intro hbg
    rw [update_some_bg s b hbg]
    refine ⟨?_, hbg, ?_⟩
    · simp [captures, BlitManager.draw_animated, List.countP_cons,
            List.countP_append, List.countP_map]
    · simp
  · have h1 := captures_on_draw_self s
    have h2 := captures_on_draw_self (BlitManager.on_draw (some s.canvas) s).state
    simp only [captures, List.countP_append] at h1 h2 ⊢
    omega

/-- C3 witness: at a state whose cached snapshot is id 5, `update`
captures nothing, keeps snapshot 5 cached and restores it. -/
theorem C3_snapshot_discipline_witness :
    sampleBM.bg = some 5 ∧
    (captures (BlitManager.update sampleBM).ops = 0 ∧
     (BlitManager.update sampleBM).state.bg = some 5 ∧
     DrawOp.restore 5 ∈ (BlitManager.update sampleBM).ops) :=
  ⟨rfl, (C3_snapshot_discipline sampleBM 5).2.1 rfl⟩

/-- C4: with a cached snapshot, `update` restores it, draws each
animated artist in registration order, blits the figure bbox and
flushes pending GUI events, in exactly that order, without raising. -/
theorem C4_update_order (s : BMState) (b : Nat) (h : s.bg = some b) :
    (BlitManager.update s).ops
      = DrawOp.restore b ::
          (s.artists.map DrawOp.drawArtist ++ [DrawOp.blit, DrawOp.flushEvents]) ∧
    (BlitManager.update s).raised = false := by
  rw [update_some_bg s b h]
  exact ⟨rfl, rfl⟩

/-- C4 witness: the concrete operation sequence of `update` at a state
with the two demo artists and cached snapshot 5. -/
theorem C4_update_order_witness :
    sampleBM.bg = some 5 ∧
    (BlitManager.update sampleBM).ops
      = DrawOp.restore 5 ::
          (sampleBM.artists.map DrawOp.drawArtist
            ++ [DrawOp.blit, DrawOp.flushEvents]) :=
  ⟨rfl, (C4_update_order sampleBM 5 rfl).1⟩

/-- C5: `add_artist` raises when the artist belongs to another figure,
leaving the manager state (in particular the still-empty snapshot
cache) and the artist untouched; on a matching figure it marks the
artist animated and appends it to the animated set. -/
theorem C5_add_artist_spec (art : Artist) (s : BMState) :
    (art.figure ≠ s.canvas.figure →
      BlitManager.add_artist art s
        = { state := s, artist := art, raised := true }) ∧
    (art.figure = s.canvas.figure →
      BlitManager.add_artist art s
        = { state := { s with
              artists := s.artists ++ [{ art with animated := true }] },
            artist := { art with animated := true },
            raised := false }) := by
  constructor
  · intro h
    simp [BlitManager.add_artist, h]
  · intro h
    simp [BlitManager.add_artist, h]

/-- C5 witness: a foreign-figure artist makes `add_artist` raise with
nothing changed, while the demo line artist is accepted, marked
animated and appended. -/
theorem C5_add_artist_spec_witness :
    (otherArtist.figure ≠ sampleBM.canvas.figure ∧
      BlitManager.add_artist otherArtist sampleBM
        = { state := sampleBM, artist := otherArtist, raised := true }) ∧
    (procLn.figure = sampleBM.canvas.figure ∧
      BlitManager.add_artist procLn sampleBM
        = { state := { sampleBM with
              artists := sampleBM.artists ++ [{ procLn with animated := true }] },
            artist := { procLn with animated := true },
            raised := false }) :=
  ⟨⟨by decide, (C5_add_artist_spec otherArtist sampleBM).1 (by decide)⟩,
   ⟨rfl, (C5_add_artist_spec procLn sampleBM).2 rfl⟩⟩

/-- C6: a draw event whose canvas differs from the managed one makes
`on_draw` raise at once: no capture, no artist drawn, and the state,
including the cached snapshot, untouched. -/
theorem C6_mismatched_surface (ec : Canvas) (s : BMState) (h : ec ≠ s.canvas) :
    BlitManager.on_draw (some ec) s
      = { state := s, ops := [], raised := true } := by
  simp [BlitManager.on_draw, h]

/-- C6 witness: a draw event from a second canvas raises with an empty
operation trace. -/
theorem C6_mismatched_surface_witness :
    otherCanvas ≠ sampleBM.canvas ∧
    BlitManager.on_draw (some otherCanvas) sampleBM
      = { state := sampleBM, ops := [], raised := true } :=
  ⟨by decide, C6_mismatched_surface otherCanvas sampleBM (by decide)⟩

/-- C7: a draw event from the managed canvas makes `on_draw` capture a
fresh snapshot (the next unused snapshot id, which becomes the cached
background) and then draw every animated artist in registration order,
without raising. -/
theorem C7_on_draw_managed (s : BMState) :
    BlitManager.on_draw (some s.canvas) s
      = { state := { s with bg := some s.nextSnap, nextSnap := s.nextSnap + 1 },
          ops := DrawOp.capture s.nextSnap :: s.artists.map DrawOp.drawArtist,
          raised := false } := by
  simp [BlitManager.on_draw, BlitManager.draw_animated]

/-- C8: the demo producer enqueues exactly 100 data frames, each of the
session length 400, then the zero-length sentinel, then joins the
renderer process and reports its exit code — in that order. -/
theorem C8_producer (gen : Nat → Frame)
    (h : ∀ j, (gen j).length = mainNSamples) :
    (mainRun gen).countP isDataPut = 100 ∧
    (∀ d, MainEvent.put d ∈ mainRun gen → d = [] ∨ d.length = 400) ∧
    mainRun gen
      = ((List.range 100).map fun j => MainEvent.put (gen j))
          ++ [MainEvent.put [], MainEvent.joinRenderer, MainEvent.reportExit] := by
  have hm : mainRun gen
      = ((List.range 100).map fun j => MainEvent.put (gen j))
          ++ [MainEvent.put [], MainEvent.joinRenderer, MainEvent.reportExit] := by
    unfold mainRun
    rw [foldl_push_eq_map (fun j => MainEvent.put (gen j))]
    simp
  refine ⟨?_, ?_, hm⟩
  · rw [hm, List.countP_append, List.countP_map]
    have h100 : List.countP (isDataPut ∘ fun j => MainEvent.put (gen j))
        (List.range 100) = (List.range 100).length := by
      rw [List.countP_eq_length]
      intro j _
      have hl := h j
      have hne : gen j ≠ [] := by
        intro e
        rw [e] at hl
        simp [mainNSamples] at hl
      simp [isDataPut, Function.comp, hne]
    rw [h100]
    simp [isDataPut]
  · intro d hd
    rw [hm] at hd
    rcases List.mem_append.mp hd with hl | hr
    · rcases List.mem_map.mp hl with ⟨j, _, hj⟩
      injection hj with hj2
      right
      rw [← hj2]
      exact h j
    · simp at hr
      exact Or.inl hr

/-- C8 witness: with a concrete generator of length-400 vectors, the
producer trace holds exactly 100 data enqueues. -/
theorem C8_producer_witness :
    (∀ j, (sampleGen j).length = mainNSamples) ∧
    (mainRun sampleGen).countP isDataPut = 100 :=
  ⟨fun j => by simp [sampleGen],
   (C8_producer sampleGen (fun j => by simp [sampleGen])).1⟩

/-- C9: `update` without a cached snapshot falls back to
`on_draw(None)` — capture, draw the animated artists — and flushes, but
performs no blit; a blit can occur only when a snapshot was cached at
entry; and after any `update` a snapshot is cached. -/
theorem C9_update_no_snapshot (s : BMState) :
    (s.bg = none →
      (BlitManager.update s).ops
        = DrawOp.capture s.nextSnap ::
            (s.artists.map DrawOp.drawArtist ++ [DrawOp.flushEvents]) ∧
      (BlitManager.update s).state.bg = some s.nextSnap ∧
      DrawOp.blit ∉ (BlitManager.update s).ops) ∧
    (DrawOp.blit ∈ (BlitManager.update s).ops → s.bg.isSome = true) ∧
    (BlitManager.update s).state.bg.isSome = true := by
  by_cases hbg : s.bg = none
  · have hu : BlitManager.update s
        = { state := { s with bg := some s.nextSnap, nextSnap := s.nextSnap + 1 },
            ops := DrawOp.capture s.nextSnap ::
              (s.artists.map DrawOp.drawArtist ++ [DrawOp.flushEvents]),
            raised := false } := by
      simp [BlitManager.update, hbg, BlitManager.on_draw, BlitManager.draw_animated]
    refine ⟨fun _ => ⟨?_, ?_, ?_⟩, ?_, ?_⟩ <;> rw [hu] <;>
      simp [List.mem_cons, List.mem_append, List.mem_map]
  · obtain ⟨b, hb⟩ := Option.ne_none_iff_exists'.mp hbg
    refine ⟨fun hn => ?_, fun _ => ?_, ?_⟩
    · rw [hn] at hb
      exact absurd hb (by simp)
    · simp [hb]
    · rw [update_some_bg s b hb]
      simp [hb]

/-- C9 witness: at the fresh state `update` captures, draws and flushes
without a blit, while at the cached state a blit does occur and a
snapshot was indeed cached at entry. -/
theorem C9_update_no_snapshot_witness :
    (sampleBMFresh.bg = none ∧
      ((BlitManager.update sampleBMFresh).ops
        = DrawOp.capture sampleBMFresh.nextSnap ::
            (sampleBMFresh.artists.map DrawOp.drawArtist
              ++ [DrawOp.flushEvents]) ∧
       (BlitManager.update sampleBMFresh).state.bg
          = some sampleBMFresh.nextSnap ∧
       DrawOp.blit ∉ (BlitManager.update sampleBMFresh).ops)) ∧
    (DrawOp.blit ∈ (BlitManager.update sampleBM).ops ∧
      sampleBM.bg.isSome = true) :=
  ⟨⟨rfl, (C9_update_no_snapshot sampleBMFresh).1 rfl⟩,
   ⟨by decide, (C9_update_no_snapshot sampleBM).2.1 (by decide)⟩⟩

/-- C10: `on_draw` with a `None` event — the internal call made by
`update` — skips the canvas-identity check entirely: for every state it
captures a snapshot and draws the animated artists without raising, so
the mismatched-surface error is unreachable on this path. -/
theorem C10_on_draw_none (s : BMState) :
    BlitManager.on_draw none s
      = { state := { s with bg := some s.nextSnap, nextSnap := s.nextSnap + 1 },
          ops := DrawOp.capture s.nextSnap :: s.artists.map DrawOp.drawArtist,
          raised := false } := rfl
